import Mathlib

/-!
Verification of the BoB Kavach backend (main.py) against its design
specification.  The in-memory stores are modelled as functions from string
keys to optional values; the random draws of the challenge endpoint and the
external video-understanding oracle are passed in as explicit parameters.
-/

namespace BoBKavach

/-! ## Liveness challenge verifier (src/main.py, VKYC endpoints) -/

/-- The fixed emotion vocabulary `EMOTIONS` of main.py. -/
def EMOTIONS : List String := ["Happy", "Surprised"]

/-- The fixed phrase vocabulary `PHRASES` of main.py. -/
def PHRASES : List String :=
  ["Bank of Baroda provides secure banking",
   "Digital safety is our top priority",
   "My identity is secure with this technology"]

/-- A pending challenge as stored in `challenges_db`: the dict
`\x7b"emotion": ..., "phrase": ...\x7d` built by `get_vkyc_challenge`. -/
structure Challenge where
  emotion : String
  phrase : String
deriving DecidableEq, Repr

/-- The in-memory pending-challenges table `challenges_db`. -/
def ChallengesDB : Type := String → Option Challenge

/-- Result of the challenge-issuing endpoint: the returned
`\x7b"challenge_id": ..., "challenge": ...\x7d` payload. -/
structure IssueResult where
  challenge_id : String
  challenge : Challenge
deriving DecidableEq, Repr

/-- `get_vkyc_challenge` of main.py.  The random draws are parameters:
`n` models `random.randint(10000, 99999)` and `e`, `p` model
`random.choice(EMOTIONS)` and `random.choice(PHRASES)`.  The drawn id is
stored into `challenges_db` (overwriting whatever was there) and the
id/challenge pair is returned. -/
def get_vkyc_challenge (n : Nat) (e p : String) (db : ChallengesDB) :
    IssueResult × ChallengesDB :=
  let challenge_id := toString n
  let challenge : Challenge := ⟨e, p⟩
  (⟨challenge_id, challenge⟩,
   fun k => if k = challenge_id then some challenge else db k)

/-- The JSON object parsed out of the Gemini response text by
`verify_vkyc_with_gemini`: `result.get("phrase_matched", False)` and
`result.get("emotion_matched", False)` default to `False` when the key is
absent, and `result.get("reasoning")` defaults to `None`. -/
structure GeminiResult where
  phrase_matched : Option Bool
  emotion_matched : Option Bool
  reasoning : Option String
deriving DecidableEq, Repr

/-- A response of the verify endpoint: either a raised `HTTPException`
(status code and detail) or a normal JSON reply
`\x7b"status": ..., "message": ..., "details": ...\x7d`. -/
inductive VerifyResponse where
  | error (code : Nat) (detail : String)
  | ok (status message : String) (details : Option String)
deriving DecidableEq, Repr

/-- `verify_vkyc_with_gemini` of main.py.  `hasKey` models whether
`API_KEY` is set.  The whole oracle interaction (file upload,
`generate_content`, markdown cleanup and `json.loads`) is the `oracle`
parameter, applied to the caller-supplied expected emotion and phrase for
the uploaded video: `Except.error e` is any exception raised inside the
`try` block (API failure, timeout, unparseable response text), caught and
re-raised as a 500; `Except.ok r` is a successfully parsed JSON result.
The pending entry is popped before the oracle is consulted and its stored
content is discarded. -/
def verify_vkyc_with_gemini (hasKey : Bool) (db : ChallengesDB)
    (challenge_id expected_emotion expected_phrase : String)
    (oracle : String → String → Except String GeminiResult) :
    VerifyResponse × ChallengesDB :=
  if !hasKey then
    (.error 500 "Server is missing API Key configuration.", db)
  else
    match db challenge_id with
    | none => (.error 400 "Invalid or expired challenge ID.", db)
    | some _ =>
      let db' : ChallengesDB := fun k => if k = challenge_id then none else db k
      match oracle expected_emotion expected_phrase with
      | .error e =>
          (.error 500 ("Failed to process video with AI model. Error: " ++ e), db')
      | .ok result =>
          let phrase_matched := result.phrase_matched.getD false
          let emotion_matched := result.emotion_matched.getD false
          if phrase_matched && emotion_matched then
            (.ok "Success" "Verification successful!" result.reasoning, db')
          else
            (.ok "Failed" "Liveness check failed." result.reasoning, db')

/-! ## Rule-based phrase matcher -/

/-- Splits a character stream into words at spaces, dropping empty
fragments; `cur` accumulates the current word reversed. -/
def splitWordsAux : List Char → List Char → List String
  | [], [] => []
  | [], cur => [String.mk cur.reverse]
  | c :: cs, cur =>
    if c = ' ' then
      (if cur.isEmpty then splitWordsAux cs [] else
        String.mk cur.reverse :: splitWordsAux cs [])
    else splitWordsAux cs (c :: cur)

/-- Modelled from the spec: the rule-based phrase matcher of the liveness
verifier is not in src/ (the shipped main.py delegates the phrase judgment
to the external oracle).  Per the spec, both phrases are tokenized into
lower-cased word sets. -/
def wordSet (s : String) : Finset String :=
  (splitWordsAux (s.data.map Char.toLower) []).toFinset

/-- Modelled from the spec: the phrase-match score
`|intersection| / |expected set|` of the rule-based matcher, over ℚ. -/
def phraseOverlap (expected spoken : String) : ℚ :=
  ((wordSet expected ∩ wordSet spoken).card : ℚ) / ((wordSet expected).card : ℚ)

/-- Modelled from the spec: the phrase is matched when the overlap score
strictly exceeds 0.70. -/
def phrase_match (expected spoken : String) : Bool :=
  decide ((0.70 : ℚ) < phraseOverlap expected spoken)

/-! ## Behavioral baseline engine (src/main.py, analyze_typing_rhythm) -/

/-- A stored behavioral profile: the dict
`\x7b"mean": ..., "std_dev": ...\x7d` kept in `user_rhythm_profiles`. -/
structure Profile where
  mean : ℝ
  std_dev : ℝ

/-- The in-memory per-user profile table `user_rhythm_profiles`. -/
def ProfilesDB : Type := String → Option Profile

/-- A response of the analyze-rhythm endpoint: a raised `HTTPException`, or
one of the three status replies, the latter two carrying the z-score. -/
inductive RhythmResponse where
  | error (code : Nat) (detail : String)
  | profileCreated
  | matched (z_score : ℝ)
  | mismatch (z_score : ℝ)

/-- `np.mean`: the arithmetic mean of the samples. -/
noncomputable def npMean (t : List ℝ) : ℝ := t.sum / t.length

/-- `np.std`: the population standard deviation of the samples, the square
root of the mean squared deviation from the sample mean. -/
noncomputable def npStd (t : List ℝ) : ℝ :=
  Real.sqrt ((t.map (fun x => (x - npMean t) ^ 2)).sum / t.length)

/-- `analyze_typing_rhythm` of main.py.  Empty timings raise a 400; a user
without a profile gets one created from the sample (std-dev fallback 30
for a single sample) with status "Profile Created"; otherwise the z-score
`abs((mean(timings) - profile.mean) / (profile.std_dev or 1))` classifies
the sample as "Rhythm Matched" (z < 2.0) or "Rhythm Mismatch". -/
noncomputable def analyze_typing_rhythm (db : ProfilesDB) (user_id : String)
    (timings : List ℝ) : RhythmResponse × ProfilesDB :=
  match timings with
  | [] => (.error 400 "No timing data provided.", db)
  | _ :: _ =>
    let current_avg_timing := npMean timings
    match db user_id with
    | none =>
      let p : Profile :=
        { mean := current_avg_timing
          std_dev := if 1 < timings.length then npStd timings else 30 }
      (.profileCreated, fun u => if u = user_id then some p else db u)
    | some profile =>
      let z_score :=
        |(current_avg_timing - profile.mean) /
          (if profile.std_dev = 0 then 1 else profile.std_dev)|
      if z_score < 2 then (.matched z_score, db)
      else (.mismatch z_score, db)

/-- Runs a sequence of analyze-rhythm submissions, threading the profile
table through. -/
noncomputable def runRhythmCalls (db : ProfilesDB) :
    List (String × List ℝ) → ProfilesDB
  | [] => db
  | c :: cs => runRhythmCalls (analyze_typing_rhythm db c.1 c.2).2 cs


/-! ## Sample data used by the concrete witnesses -/

/-- A pending-challenges table with two issued challenges. -/
def sampleChallengesDB : ChallengesDB :=
  fun k =>
    if k = "12345" then some ⟨"Happy", "Digital safety is our top priority"⟩
    else if k = "20000" then some ⟨"Surprised", "Bank of Baroda provides secure banking"⟩
    else none

/-- An oracle interaction that approves both signals. -/
def approveOracle : String → String → Except String GeminiResult :=
  fun _ _ => .ok ⟨some true, some true, some "clear video"⟩

/-- An oracle interaction that rejects only the phrase signal. -/
def rejectPhraseOracle : String → String → Except String GeminiResult :=
  fun _ _ => .ok ⟨some false, some true, some "muffled audio"⟩

/-- An oracle interaction that rejects only the emotion signal. -/
def rejectEmotionOracle : String → String → Except String GeminiResult :=
  fun _ _ => .ok ⟨some true, some false, some "muffled audio"⟩

/-- An oracle interaction that raises an exception. -/
def downOracle : String → String → Except String GeminiResult :=
  fun _ _ => .error "DeadlineExceeded"

/-! ## Helper lemmas -/

/-- Verifying a pending challenge removes exactly that entry from the
table, whatever the oracle interaction returned. -/
theorem verify_consumed_state (db : ChallengesDB) (cid ee ep : String)
    (c : Challenge) (oracle : String → String → Except String GeminiResult)
    (hpend : db cid = some c) :
    (verify_vkyc_with_gemini true db cid ee ep oracle).2 =
      fun k => if k = cid then none else db k := by
  rcases hor : oracle ee ep with e | r
  · simp [verify_vkyc_with_gemini, hpend, hor]
  · by_cases hb : (r.phrase_matched.getD false && r.emotion_matched.getD false) = true
    · simp [verify_vkyc_with_gemini, hpend, hor, hb]
    · simp [verify_vkyc_with_gemini, hpend, hor, hb]

/-- On a pending challenge with a parsed oracle judgment, the response is
Success when both judged booleans hold and Failed otherwise, carrying the
oracle's reasoning as details. -/
theorem verify_response_ok (db : ChallengesDB) (cid ee ep : String)
    (c : Challenge) (oracle : String → String → Except String GeminiResult)
    (r : GeminiResult) (hpend : db cid = some c) (hor : oracle ee ep = .ok r) :
    (verify_vkyc_with_gemini true db cid ee ep oracle).1 =
      if (r.phrase_matched.getD false && r.emotion_matched.getD false) = true then
        .ok "Success" "Verification successful!" r.reasoning
      else
        .ok "Failed" "Liveness check failed." r.reasoning := by
  by_cases hb : (r.phrase_matched.getD false && r.emotion_matched.getD false) = true
  · simp [verify_vkyc_with_gemini, hpend, hor, hb]
  · simp [verify_vkyc_with_gemini, hpend, hor, hb]

/-- Verifying an id that is not pending is rejected with the 400 error and
leaves the table unchanged. -/
theorem verify_unknown_id (db : ChallengesDB) (cid ee ep : String)
    (oracle : String → String → Except String GeminiResult)
    (habs : db cid = none) :
    verify_vkyc_with_gemini true db cid ee ep oracle =
      (.error 400 "Invalid or expired challenge ID.", db) := by
  simp [verify_vkyc_with_gemini, habs]

/-! ## Claim theorems -/

/-- C2: the first Verify call on a pending challenge id returns a definitive
Success/Failure outcome (when the oracle yields a judgment) and consumes the
challenge; every later Verify call on that id, and any Verify call on an id
that is not pending, fails with the invalid-challenge client error. -/
theorem C2_verify_single_use (db : ChallengesDB) (cid ee ep : String)
    (c : Challenge) (oracle : String → String → Except String GeminiResult)
    (hpend : db cid = some c) :
    (∀ r, oracle ee ep = .ok r → ∃ d,
      (verify_vkyc_with_gemini true db cid ee ep oracle).1 =
          .ok "Success" "Verification successful!" d ∨
      (verify_vkyc_with_gemini true db cid ee ep oracle).1 =
          .ok "Failed" "Liveness check failed." d) ∧
    (verify_vkyc_with_gemini true db cid ee ep oracle).2 cid = none ∧
    (∀ ee' ep' oracle',
      (verify_vkyc_with_gemini true
          (verify_vkyc_with_gemini true db cid ee ep oracle).2
          cid ee' ep' oracle').1 =
        .error 400 "Invalid or expired challenge ID.") ∧
    (∀ (db₀ : ChallengesDB) (cid₀ : String), db₀ cid₀ = none →
      (verify_vkyc_with_gemini true db₀ cid₀ ee ep oracle).1 =
        .error 400 "Invalid or expired challenge ID.") := by
  refine ⟨?_, ?_, ?_, ?_⟩
  · intro r hr
    refine ⟨r.reasoning, ?_⟩
    rw [verify_response_ok db cid ee ep c oracle r hpend hr]
    by_cases hb : (r.phrase_matched.getD false && r.emotion_matched.getD false) = true
    · exact Or.inl (if_pos hb)
    · exact Or.inr (if_neg hb)
  · rw [verify_consumed_state db cid ee ep c oracle hpend]
    simp
  · intro ee' ep' oracle'
    rw [verify_consumed_state db cid ee ep c oracle hpend,
      verify_unknown_id _ cid ee' ep' oracle' (by simp)]
  · intro db₀ cid₀ h₀
    rw [verify_unknown_id db₀ cid₀ ee ep oracle h₀]

/-- C2 witness: a concrete pending challenge is consumed by the first call,
the second call is rejected, and unknown ids are rejected. -/
theorem C2_witness :
    (∀ r, approveOracle "Happy" "Digital safety is our top priority" = .ok r → ∃ d,
      (verify_vkyc_with_gemini true sampleChallengesDB "12345" "Happy"
          "Digital safety is our top priority" approveOracle).1 =
          .ok "Success" "Verification successful!" d ∨
      (verify_vkyc_with_gemini true sampleChallengesDB "12345" "Happy"
          "Digital safety is our top priority" approveOracle).1 =
          .ok "Failed" "Liveness check failed." d) ∧
    (verify_vkyc_with_gemini true sampleChallengesDB "12345" "Happy"
        "Digital safety is our top priority" approveOracle).2 "12345" = none ∧
    (∀ ee' ep' oracle',
      (verify_vkyc_with_gemini true
          (verify_vkyc_with_gemini true sampleChallengesDB "12345" "Happy"
            "Digital safety is our top priority" approveOracle).2
          "12345" ee' ep' oracle').1 =
        .error 400 "Invalid or expired challenge ID.") ∧
    (∀ (db₀ : ChallengesDB) (cid₀ : String), db₀ cid₀ = none →
      (verify_vkyc_with_gemini true db₀ cid₀ "Happy"
          "Digital safety is our top priority" approveOracle).1 =
        .error 400 "Invalid or expired challenge ID.") :=
  C2_verify_single_use sampleChallengesDB "12345" "Happy"
    "Digital safety is our top priority"
    ⟨"Happy", "Digital safety is our top priority"⟩ approveOracle (by simp [sampleChallengesDB])

/-- C6: the Verify outcome in the oracle-backed path is independent of the
emotion/phrase content stored at issuance: two runs over tables holding
different challenge content under the same pending id, with identical
caller-supplied inputs and oracle interaction, produce identical responses,
so the stored content is consumed unread. -/
theorem C6_stored_content_unread (db₁ db₂ : ChallengesDB) (cid ee ep : String)
    (c₁ c₂ : Challenge) (oracle : String → String → Except String GeminiResult)
    (h₁ : db₁ cid = some c₁) (h₂ : db₂ cid = some c₂) :
    (verify_vkyc_with_gemini true db₁ cid ee ep oracle).1 =
      (verify_vkyc_with_gemini true db₂ cid ee ep oracle).1 := by
  rcases hor : oracle ee ep with e | r
  · simp [verify_vkyc_with_gemini, h₁, h₂, hor]
  · rw [verify_response_ok db₁ cid ee ep c₁ oracle r h₁ hor,
      verify_response_ok db₂ cid ee ep c₂ oracle r h₂ hor]

/-- C6 witness: two challenges issued with different emotion/phrase content
but identical caller-supplied inputs verify to the same response. -/
theorem C6_witness :
    (verify_vkyc_with_gemini true
        (fun k => if k = "10001" then some ⟨"Happy", "Bank of Baroda provides secure banking"⟩ else none)
        "10001" "Surprised" "My identity is secure with this technology"
        rejectPhraseOracle).1 =
      (verify_vkyc_with_gemini true
        (fun k => if k = "10001" then some ⟨"Surprised", "Digital safety is our top priority"⟩ else none)
        "10001" "Surprised" "My identity is secure with this technology"
        rejectPhraseOracle).1 :=
  C6_stored_content_unread _ _ "10001" "Surprised" "My identity is secure with this technology"
    ⟨"Happy", "Bank of Baroda provides secure banking"⟩
    ⟨"Surprised", "Digital safety is our top priority"⟩
    rejectPhraseOracle (by simp) (by simp)

/-- C7: on a pending challenge, an oracle failure surfaces as the 500-class
service error, while a failed liveness judgment surfaces as the Failed
verdict; the two response shapes are distinct by construction. -/
theorem C7_oracle_error_distinct (db : ChallengesDB) (cid ee ep : String)
    (c : Challenge) (oracle : String → String → Except String GeminiResult)
    (hpend : db cid = some c) :
    (∀ e, oracle ee ep = .error e →
      (verify_vkyc_with_gemini true db cid ee ep oracle).1 =
        .error 500 ("Failed to process video with AI model. Error: " ++ e)) ∧
    (∀ r, oracle ee ep = .ok r →
      (r.phrase_matched.getD false && r.emotion_matched.getD false) = false →
      (verify_vkyc_with_gemini true db cid ee ep oracle).1 =
        .ok "Failed" "Liveness check failed." r.reasoning) ∧
    (∀ (code : Nat) (d s m : String) (dt : Option String),
      VerifyResponse.error code d ≠ VerifyResponse.ok s m dt) := by
  refine ⟨?_, ?_, ?_⟩
  · intro e he
    simp [verify_vkyc_with_gemini, hpend, he]
  · intro r hr hb
    rw [verify_response_ok db cid ee ep c oracle r hpend hr,
      if_neg (by simp [hb])]
  · intro code d s m dt h
    cases h

/-- C7 witness: a concrete oracle exception yields the 500 error and a
concrete negative judgment yields the Failed verdict. -/
theorem C7_witness :
    (∀ e, downOracle "Surprised" "Bank of Baroda provides secure banking" = .error e →
      (verify_vkyc_with_gemini true sampleChallengesDB "20000" "Surprised"
          "Bank of Baroda provides secure banking" downOracle).1 =
        .error 500 ("Failed to process video with AI model. Error: " ++ e)) ∧
    (∀ r, downOracle "Surprised" "Bank of Baroda provides secure banking" = .ok r →
      (r.phrase_matched.getD false && r.emotion_matched.getD false) = false →
      (verify_vkyc_with_gemini true sampleChallengesDB "20000" "Surprised"
          "Bank of Baroda provides secure banking" downOracle).1 =
        .ok "Failed" "Liveness check failed." r.reasoning) ∧
    (∀ (code : Nat) (d s m : String) (dt : Option String),
      VerifyResponse.error code d ≠ VerifyResponse.ok s m dt) :=
  C7_oracle_error_distinct sampleChallengesDB "20000" "Surprised"
    "Bank of Baroda provides secure banking"
    ⟨"Surprised", "Bank of Baroda provides secure banking"⟩ downOracle
    (by simp [sampleChallengesDB])


/-- A pending-challenges table already holding the id "10000". -/
def collisionDB : ChallengesDB :=
  fun k =>
    if k = "10000" then some ⟨"Surprised", "My identity is secure with this technology"⟩
    else none

/-- C4 counterexample: with the id "10000" already pending, the issuance
draw 10000 (inside the 10000..99999 draw range) returns an id equal to the
pending id and overwrites the stored pending challenge, refuting both the
freshness and the never-overwrites parts of the claim. -/
theorem C4_counterexample :
    10000 ≤ 10000 ∧ 10000 ≤ 99999 ∧
    collisionDB ((get_vkyc_challenge 10000 "Happy"
        "Bank of Baroda provides secure banking" collisionDB).1.challenge_id) =
      some ⟨"Surprised", "My identity is secure with this technology"⟩ ∧
    (get_vkyc_challenge 10000 "Happy"
        "Bank of Baroda provides secure banking" collisionDB).2 "10000" ≠
      some ⟨"Surprised", "My identity is secure with this technology"⟩ := by
  refine ⟨by norm_num, by norm_num, by decide, by decide⟩

/-- C4 amended: issuance returns the decimal string of the draw as the id,
returns the drawn emotion/phrase pair, stores it under that id, and leaves
every other pending id untouched; the returned id is distinct from every
already-pending id exactly when the drawn id is not itself pending (a
colliding draw overwrites the existing pending challenge). -/
theorem C4_issue_stores_draw (db : ChallengesDB) (n : Nat) (e p : String)
    (h₁ : 10000 ≤ n) (h₂ : n ≤ 99999) (he : e ∈ EMOTIONS) (hp : p ∈ PHRASES) :
    (get_vkyc_challenge n e p db).1.challenge_id = toString n ∧
    (get_vkyc_challenge n e p db).1.challenge = ⟨e, p⟩ ∧
    (get_vkyc_challenge n e p db).2 (toString n) = some ⟨e, p⟩ ∧
    (∀ k, k ≠ toString n → (get_vkyc_challenge n e p db).2 k = db k) ∧
    (db (toString n) = none →
      db ((get_vkyc_challenge n e p db).1.challenge_id) = none) := by
  refine ⟨rfl, rfl, by simp [get_vkyc_challenge], ?_, ?_⟩
  · intro k hk
    simp [get_vkyc_challenge, hk]
  · intro h₀
    simpa [get_vkyc_challenge] using h₀

/-- C4 witness: a concrete non-colliding issuance on an empty table. -/
theorem C4_witness :
    (get_vkyc_challenge 54321 "Happy"
        "Bank of Baroda provides secure banking" (fun _ => none)).1.challenge_id =
      toString 54321 ∧
    (get_vkyc_challenge 54321 "Happy"
        "Bank of Baroda provides secure banking" (fun _ => none)).1.challenge =
      ⟨"Happy", "Bank of Baroda provides secure banking"⟩ ∧
    (get_vkyc_challenge 54321 "Happy"
        "Bank of Baroda provides secure banking" (fun _ => none)).2 (toString 54321) =
      some ⟨"Happy", "Bank of Baroda provides secure banking"⟩ ∧
    (∀ k, k ≠ toString 54321 →
      (get_vkyc_challenge 54321 "Happy"
        "Bank of Baroda provides secure banking" (fun _ => none)).2 k =
        (fun _ => (none : Option Challenge)) k) ∧
    ((fun _ => (none : Option Challenge)) (toString 54321) = none →
      (fun _ => (none : Option Challenge))
        ((get_vkyc_challenge 54321 "Happy"
          "Bank of Baroda provides secure banking" (fun _ => none)).1.challenge_id) = none) :=
  C4_issue_stores_draw (fun _ => none) 54321 "Happy"
    "Bank of Baroda provides secure banking" (by norm_num) (by norm_num)
    (by decide) (by decide)

/-- C5 counterexample: two verifications with identical pending state in
which opposite signals fail (only the phrase in one run, only the emotion
in the other, same oracle reasoning) produce byte-identical responses, so
the response does not report which of the two signals failed. -/
theorem C5_counterexample :
    (verify_vkyc_with_gemini true sampleChallengesDB "12345" "Happy"
        "Digital safety is our top priority" rejectPhraseOracle).1 =
      (verify_vkyc_with_gemini true sampleChallengesDB "12345" "Happy"
        "Digital safety is our top priority" rejectEmotionOracle).1 ∧
    rejectPhraseOracle "Happy" "Digital safety is our top priority" =
      .ok ⟨some false, some true, some "muffled audio"⟩ ∧
    rejectEmotionOracle "Happy" "Digital safety is our top priority" =
      .ok ⟨some true, some false, some "muffled audio"⟩ := by
  refine ⟨by decide, rfl, rfl⟩

/-- C5 amended: for a Verify call that consumes a pending challenge and
obtains a parsed oracle judgment, the outcome is Success exactly when both
judged signals hold and Failed otherwise; in both cases the details field
carries only the oracle's free-text reasoning, not a structured report of
which signal failed. -/
theorem C5_success_iff_both (db : ChallengesDB) (cid ee ep : String)
    (c : Challenge) (oracle : String → String → Except String GeminiResult)
    (r : GeminiResult) (hpend : db cid = some c) (hor : oracle ee ep = .ok r) :
    (verify_vkyc_with_gemini true db cid ee ep oracle).1 =
      (if (r.phrase_matched.getD false && r.emotion_matched.getD false) = true then
        .ok "Success" "Verification successful!" r.reasoning
      else
        .ok "Failed" "Liveness check failed." r.reasoning) ∧
    ((verify_vkyc_with_gemini true db cid ee ep oracle).1 =
        .ok "Success" "Verification successful!" r.reasoning ↔
      r.phrase_matched.getD false = true ∧ r.emotion_matched.getD false = true) := by
  have h := verify_response_ok db cid ee ep c oracle r hpend hor
  refine ⟨h, ?_⟩
  rw [h]
  by_cases hb : (r.phrase_matched.getD false && r.emotion_matched.getD false) = true
  · rw [if_pos hb, Bool.and_eq_true] at *
    simp [hb.1, hb.2]
  · rw [if_neg hb, Bool.and_eq_true] at *
    constructor
    · intro he
      have : ("Failed" : String) = "Success" := (VerifyResponse.ok.injEq _ _ _ _ _ _).mp he |>.1
      exact absurd this (by decide)
    · intro hab
      exact absurd hab hb

/-- C5 witness: a concrete approved verification returns Success. -/
theorem C5_witness :
    ((verify_vkyc_with_gemini true sampleChallengesDB "20000" "Surprised"
        "Bank of Baroda provides secure banking" approveOracle).1 =
      (if ((some true).getD false && (some true).getD false) = true then
        .ok "Success" "Verification successful!" (some "clear video")
      else
        .ok "Failed" "Liveness check failed." (some "clear video")) ∧
    ((verify_vkyc_with_gemini true sampleChallengesDB "20000" "Surprised"
        "Bank of Baroda provides secure banking" approveOracle).1 =
        .ok "Success" "Verification successful!" (some "clear video") ↔
      (some true).getD false = true ∧ (some true).getD false = true)) :=
  C5_success_iff_both sampleChallengesDB "20000" "Surprised"
    "Bank of Baroda provides secure banking"
    ⟨"Surprised", "Bank of Baroda provides secure banking"⟩ approveOracle
    ⟨some true, some true, some "clear video"⟩
    (by simp [sampleChallengesDB]) rfl


/-- C3: the phrase-match signal compares the lower-cased word-set overlap
score against 0.70, matched exactly when the score exceeds 0.70; the
spoken phrase "digital safety is priority" scores 4/6 against the expected
"Digital safety is our top priority" and is not matched, while
"digital safety is our top priority today" scores 6/6 and is matched. -/
theorem C3_phrase_match_threshold :
    (∀ e s, phrase_match e s = true ↔ (0.70 : ℚ) < phraseOverlap e s) ∧
    phraseOverlap "Digital safety is our top priority"
      "digital safety is priority" = 4 / 6 ∧
    phrase_match "Digital safety is our top priority"
      "digital safety is priority" = false ∧
    phraseOverlap "Digital safety is our top priority"
      "digital safety is our top priority today" = 6 / 6 ∧
    phrase_match "Digital safety is our top priority"
      "digital safety is our top priority today" = true := by
  have hE : (wordSet "Digital safety is our top priority").card = 6 := by decide
  have h₁ : (wordSet "Digital safety is our top priority" ∩
      wordSet "digital safety is priority").card = 4 := by decide
  have h₂ : (wordSet "Digital safety is our top priority" ∩
      wordSet "digital safety is our top priority today").card = 6 := by decide
  have ho₁ : phraseOverlap "Digital safety is our top priority"
      "digital safety is priority" = 4 / 6 := by
    simp only [phraseOverlap, h₁, hE]
    norm_num
  have ho₂ : phraseOverlap "Digital safety is our top priority"
      "digital safety is our top priority today" = 6 / 6 := by
    simp only [phraseOverlap, h₂, hE]
    norm_num
  refine ⟨fun e s => by simp [phrase_match], ho₁, ?_, ho₂, ?_⟩
  · simp only [phrase_match, ho₁, decide_eq_false_iff_not]
    norm_num
  · simp only [phrase_match, ho₂, decide_eq_true_iff]
    norm_num

/-- C10: an empty timings sequence is rejected with the 400 no-timing-data
error and the profile table is left unchanged, whether or not the user
already has a profile. -/
theorem C10_empty_timings (db : ProfilesDB) (uid : String) :
    analyze_typing_rhythm db uid [] = (.error 400 "No timing data provided.", db) := rfl

/-- An analyze-rhythm call never changes an existing profile of any user:
it only ever inserts a profile for a user who had none. -/
theorem analyze_preserves_existing (db : ProfilesDB) (uid uid' : String)
    (p : Profile) (t : List ℝ) (h : db uid = some p) :
    (analyze_typing_rhythm db uid' t).2 uid = some p := by
  cases t with
  | nil => simpa [analyze_typing_rhythm] using h
  | cons x xs =>
    rcases h' : db uid' with _ | q
    · have hne : uid ≠ uid' := by
        intro hEq
        rw [hEq, h'] at h
        cases h
      simp [analyze_typing_rhythm, h', hne, h]
    · simp only [analyze_typing_rhythm, h']
      split <;> split <;> exact h

/-- C9: once created, a behavioral profile is immutable: after any further
sequence of analyze-rhythm submissions, by this user or others, the stored
profile still holds the values persisted at creation. -/
theorem C9_profile_never_updated (calls : List (String × List ℝ))
    (db : ProfilesDB) (uid : String) (p : Profile) (h : db uid = some p) :
    runRhythmCalls db calls uid = some p := by
  induction calls generalizing db with
  | nil => simpa [runRhythmCalls] using h
  | cons c cs ih =>
    simp only [runRhythmCalls]
    exact ih _ (analyze_preserves_existing db uid c.1 p c.2 h)

/-- A profile table holding one profile for user "u1". -/
noncomputable def sampleProfilesDB : ProfilesDB :=
  fun u => if u = "u1" then some ⟨100, 30⟩ else none

/-- C9 witness: a concrete profile survives a mismatching submission by its
owner, a submission by another user, and an invalid empty submission. -/
theorem C9_witness :
    runRhythmCalls sampleProfilesDB [("u1", [500]), ("u2", [10]), ("u1", [])] "u1" =
      some ⟨100, 30⟩ :=
  C9_profile_never_updated [("u1", [500]), ("u2", [10]), ("u1", [])]
    sampleProfilesDB "u1" ⟨100, 30⟩ (by simp [sampleProfilesDB])

/-- C1: a submission by a user with an existing profile (whose stored
standard deviation is non-negative, as all created profiles are) is
classified by the z-score, the absolute gap between the sample mean and
the profile mean divided by the profile standard deviation (1 substituted
when it is zero): Rhythm Matched when the z-score is strictly below 2,
Rhythm Mismatch otherwise, the z-score reported in both cases. -/
theorem C1_zscore_classification (db : ProfilesDB) (uid : String) (p : Profile)
    (x : ℝ) (xs : List ℝ) (hp : db uid = some p) (hs : 0 ≤ p.std_dev) :
    (analyze_typing_rhythm db uid (x :: xs)).1 =
      (if |npMean (x :: xs) - p.mean| /
            (if p.std_dev = 0 then 1 else p.std_dev) < 2 then
        RhythmResponse.matched
          (|npMean (x :: xs) - p.mean| / (if p.std_dev = 0 then 1 else p.std_dev))
      else
        RhythmResponse.mismatch
          (|npMean (x :: xs) - p.mean| / (if p.std_dev = 0 then 1 else p.std_dev))) := by
  have hd : (0 : ℝ) < if p.std_dev = 0 then 1 else p.std_dev := by
    split
    · norm_num
    · exact lt_of_le_of_ne hs (Ne.symm (by assumption))
  have habs : |(npMean (x :: xs) - p.mean) / (if p.std_dev = 0 then 1 else p.std_dev)| =
      |npMean (x :: xs) - p.mean| / (if p.std_dev = 0 then 1 else p.std_dev) := by
    rw [abs_div, abs_of_pos hd]
  by_cases hz : |npMean (x :: xs) - p.mean| /
      (if p.std_dev = 0 then 1 else p.std_dev) < 2
  · simp only [analyze_typing_rhythm, hp, habs, hz, if_true]
  · simp only [analyze_typing_rhythm, hp, habs, hz, if_false]

/-- C1 witness: submitting the same single timing as the stored profile
mean gives z-score 0 and Rhythm Matched. -/
theorem C1_witness :
    (analyze_typing_rhythm sampleProfilesDB "u1" [100]).1 = RhythmResponse.matched 0 := by
  have h := C1_zscore_classification sampleProfilesDB "u1" ⟨100, 30⟩ 100 []
    (by simp [sampleProfilesDB]) (by norm_num)
  rw [h]
  norm_num [npMean]

/-- C8: a first submission creates a profile whose mean is the sample mean
and whose standard deviation is the sample standard deviation for two or
more samples and the fallback 30 for a single sample, with status
Profile Created. -/
theorem C8_profile_creation (db : ProfilesDB) (uid : String) (x : ℝ)
    (xs : List ℝ) (h : db uid = none) :
    (analyze_typing_rhythm db uid (x :: xs)).1 = RhythmResponse.profileCreated ∧
    (analyze_typing_rhythm db uid (x :: xs)).2 uid =
      some ⟨npMean (x :: xs), if 1 < (x :: xs).length then npStd (x :: xs) else 30⟩ := by
  constructor
  · simp [analyze_typing_rhythm, h]
  · simp [analyze_typing_rhythm, h]

/-- C8 witness: the two-sample submission [1, 3] creates the profile with
mean 2 and standard deviation 1. -/
theorem C8_witness :
    (analyze_typing_rhythm (fun _ => none) "u7" [1, 3]).1 = RhythmResponse.profileCreated ∧
    (analyze_typing_rhythm (fun _ => none) "u7" [1, 3]).2 "u7" = some ⟨2, 1⟩ := by
  have h := C8_profile_creation (fun _ => none) "u7" 1 [3] rfl
  refine ⟨h.1, ?_⟩
  rw [h.2]
  have hmean : npMean [(1 : ℝ), 3] = 2 := by
    norm_num [npMean]
  have hstd : npStd [(1 : ℝ), 3] = 1 := by
    norm_num [npStd, hmean, Real.sqrt_one]
  simp [hmean, hstd]

end BoBKavach
